import Mathlib

/-!
Verification of the MohoRenderFarm job-coordination engine.

Shallow embedding of the core data model and operations of the repository:

* `RenderJob` and its dict serialization
  (src/src/moho_renderer.py, lines 22-71);
* the render-outcome classification of `MohoRenderer.render`
  (src/src/moho_renderer.py, lines 166-294);
* the stderr stream reader (src/src/moho_renderer.py, lines 335-404);
* the master server state and its HTTP handlers
  (src/src/network/master.py);
* the queue save/load round trip (src/src/render_queue.py, lines 263-294);
* the slave job processing entry (src/src/network/slave.py, lines 218-232).

Python dicts are modelled as association lists with first-match lookup,
in-place update and insertion-order preservation.  Timestamps
(`time.time()`) are modelled at whole-second granularity as `Int`;
progress percentages as `ℚ`.  All definitions are executable.
-/

/-- JSON-style scalar values appearing in job dicts. -/
inductive Value where
  | vStr (s : String)
  | vInt (n : Int)
  | vFloat (q : ℚ)
  | vBool (b : Bool)
  | vNull
  deriving DecidableEq

open Value

/-- First-match lookup in an association list (Python `dict[k]` read). -/
def dlookup {α : Type} : List (String × α) → String → Option α
  | [], _ => none
  | (k, v) :: t, key => if k = key then some v else dlookup t key

/-- In-place update or append (Python `dict[k] = v`): if the key is
present the first binding is replaced at its position, otherwise the
pair is appended, matching insertion-ordered Python dicts. -/
def dinsert {α : Type} : List (String × α) → String → α → List (String × α)
  | [], key, val => [(key, val)]
  | (k, v) :: t, key, val =>
      if k = key then (key, val) :: t else (k, v) :: dinsert t key val

/-- Removal of the first binding of a key (Python `del dict[k]` /
`dict.pop(k)` on dicts with unique keys). -/
def derase {α : Type} : List (String × α) → String → List (String × α)
  | [], _ => []
  | (k, v) :: t, key => if k = key then t else (k, v) :: derase t key

/-- Python whitespace characters recognised by `str.strip` (ASCII). -/
def isPySpace (c : Char) : Bool :=
  c == ' ' || c == '\t' || c == '\n' || c == '\r' ||
    c == Char.ofNat 11 || c == Char.ofNat 12

/-- Python `str.rstrip()`. -/
def pyRstrip (s : String) : String :=
  String.mk ((s.data.reverse.dropWhile isPySpace).reverse)

/-- Python `str.strip()`. -/
def pyStrip (s : String) : String :=
  String.mk (((s.data.dropWhile isPySpace).reverse.dropWhile isPySpace).reverse)

/-- Job status strings (src/src/moho_renderer.py, lines 14-19,
`RenderStatus`; the code stores the `.value` strings in `job.status`). -/
def RS.pending : String := "pending"

def RS.rendering : String := "rendering"

def RS.completed : String := "completed"

def RS.failed : String := "failed"

def RS.cancelled : String := "cancelled"

/-- `RenderJob` (src/src/moho_renderer.py, lines 22-62): the dataclass
fields in source order.  `status` is one of the `RS` strings;
`progress` is a percentage; `start_time` and `end_time` are
`time.time()` stamps or `None`. -/
structure RenderJob where
  id : String := ""
  project_file : String := ""
  output_path : String := ""
  format : String := "MP4"
  options : String := "MP4 (MPEG4-AAC)"
  start_frame : Option Int := none
  end_frame : Option Int := none
  verbose : Bool := true
  quiet : Bool := false
  log_file : String := ""
  multithread : Option Bool := none
  halfsize : Option Bool := none
  halffps : Option Bool := none
  shapefx : Option Bool := none
  layerfx : Option Bool := none
  fewparticles : Option Bool := none
  layercomp : String := ""
  aa : Option Bool := none
  extrasmooth : Option Bool := none
  premultiply : Option Bool := none
  ntscsafe : Option Bool := none
  addformatsuffix : Option Bool := none
  addlayercompsuffix : Option Bool := none
  createfolderforlayercomps : Option Bool := none
  videocodec : Option Int := none
  quality : Option Int := none
  depth : Option Int := none
  subfolder_project : Bool := false
  copy_images : Bool := false
  compose_layers : Bool := false
  compose_reverse_order : Bool := false
  status : String := RS.pending
  progress : ℚ := 0
  error_message : String := ""
  start_time : Option Int := none
  end_time : Option Int := none
  assigned_slave : String := ""
  deriving DecidableEq

/-- The dataclass field names of `RenderJob`, in source order.  This is
the set `valid_fields` used by `RenderJob.from_dict`
(src/src/moho_renderer.py, lines 67-71) and the set of data attributes
an instance carries. -/
def renderJobFieldNames : List String :=
  ["id", "project_file", "output_path", "format", "options",
   "start_frame", "end_frame", "verbose", "quiet", "log_file",
   "multithread", "halfsize", "halffps", "shapefx", "layerfx",
   "fewparticles", "layercomp", "aa", "extrasmooth", "premultiply",
   "ntscsafe", "addformatsuffix", "addlayercompsuffix",
   "createfolderforlayercomps", "videocodec", "quality", "depth",
   "subfolder_project", "copy_images", "compose_layers",
   "compose_reverse_order", "status", "progress", "error_message",
   "start_time", "end_time", "assigned_slave"]

/-- Encoding of an optional int field for `asdict`. -/
def encOptInt : Option Int → Value
  | none => vNull
  | some n => vInt n

/-- Encoding of an optional bool field for `asdict`. -/
def encOptBool : Option Bool → Value
  | none => vNull
  | some b => vBool b

/-- Decoding of a string field; absent or null falls back to the
dataclass default. -/
def decStr (v? : Option Value) (dflt : String) : String :=
  match v? with
  | some (vStr s) => s
  | _ => dflt

/-- Decoding of an optional int field. -/
def decOptInt (v? : Option Value) (dflt : Option Int) : Option Int :=
  match v? with
  | some vNull => none
  | some (vInt n) => some n
  | _ => dflt

/-- Decoding of an optional bool field. -/
def decOptBool (v? : Option Value) (dflt : Option Bool) : Option Bool :=
  match v? with
  | some vNull => none
  | some (vBool b) => some b
  | _ => dflt

/-- Decoding of a float field. -/
def decFloat (v? : Option Value) (dflt : ℚ) : ℚ :=
  match v? with
  | some (vFloat q) => q
  | _ => dflt

/-- Decoding of a bool field. -/
def decBool (v? : Option Value) (dflt : Bool) : Bool :=
  match v? with
  | some (vBool b) => b
  | _ => dflt

/-- `RenderJob.to_dict` (src/src/moho_renderer.py, lines 64-65):
`dataclasses.asdict`, one key per field in field order. -/
def RenderJob.to_dict (j : RenderJob) : List (String × Value) :=
  [("id", vStr j.id),
   ("project_file", vStr j.project_file),
   ("output_path", vStr j.output_path),
   ("format", vStr j.format),
   ("options", vStr j.options),
   ("start_frame", encOptInt j.start_frame),
   ("end_frame", encOptInt j.end_frame),
   ("verbose", vBool j.verbose),
   ("quiet", vBool j.quiet),
   ("log_file", vStr j.log_file),
   ("multithread", encOptBool j.multithread),
   ("halfsize", encOptBool j.halfsize),
   ("halffps", encOptBool j.halffps),
   ("shapefx", encOptBool j.shapefx),
   ("layerfx", encOptBool j.layerfx),
   ("fewparticles", encOptBool j.fewparticles),
   ("layercomp", vStr j.layercomp),
   ("aa", encOptBool j.aa),
   ("extrasmooth", encOptBool j.extrasmooth),
   ("premultiply", encOptBool j.premultiply),
   ("ntscsafe", encOptBool j.ntscsafe),
   ("addformatsuffix", encOptBool j.addformatsuffix),
   ("addlayercompsuffix", encOptBool j.addlayercompsuffix),
   ("createfolderforlayercomps", encOptBool j.createfolderforlayercomps),
   ("videocodec", encOptInt j.videocodec),
   ("quality", encOptInt j.quality),
   ("depth", encOptInt j.depth),
   ("subfolder_project", vBool j.subfolder_project),
   ("copy_images", vBool j.copy_images),
   ("compose_layers", vBool j.compose_layers),
   ("compose_reverse_order", vBool j.compose_reverse_order),
   ("status", vStr j.status),
   ("progress", vFloat j.progress),
   ("error_message", vStr j.error_message),
   ("start_time", encOptInt j.start_time),
   ("end_time", encOptInt j.end_time),
   ("assigned_slave", vStr j.assigned_slave)]

/-- `RenderJob.from_dict` (src/src/moho_renderer.py, lines 67-71):
keys outside `valid_fields` are filtered out, remaining keys override
the dataclass defaults.  The Python default for `id` is a fresh uuid
prefix; that nondeterministic choice is passed in as `uuid`. -/
def RenderJob.from_dict (uuid : String) (d : List (String × Value)) : RenderJob :=
  { id := decStr (dlookup d "id") uuid
    project_file := decStr (dlookup d "project_file") ""
    output_path := decStr (dlookup d "output_path") ""
    format := decStr (dlookup d "format") "MP4"
    options := decStr (dlookup d "options") "MP4 (MPEG4-AAC)"
    start_frame := decOptInt (dlookup d "start_frame") none
    end_frame := decOptInt (dlookup d "end_frame") none
    verbose := decBool (dlookup d "verbose") true
    quiet := decBool (dlookup d "quiet") false
    log_file := decStr (dlookup d "log_file") ""
    multithread := decOptBool (dlookup d "multithread") none
    halfsize := decOptBool (dlookup d "halfsize") none
    halffps := decOptBool (dlookup d "halffps") none
    shapefx := decOptBool (dlookup d "shapefx") none
    layerfx := decOptBool (dlookup d "layerfx") none
    fewparticles := decOptBool (dlookup d "fewparticles") none
    layercomp := decStr (dlookup d "layercomp") ""
    aa := decOptBool (dlookup d "aa") none
    extrasmooth := decOptBool (dlookup d "extrasmooth") none
    premultiply := decOptBool (dlookup d "premultiply") none
    ntscsafe := decOptBool (dlookup d "ntscsafe") none
    addformatsuffix := decOptBool (dlookup d "addformatsuffix") none
    addlayercompsuffix := decOptBool (dlookup d "addlayercompsuffix") none
    createfolderforlayercomps :=
      decOptBool (dlookup d "createfolderforlayercomps") none
    videocodec := decOptInt (dlookup d "videocodec") none
    quality := decOptInt (dlookup d "quality") none
    depth := decOptInt (dlookup d "depth") none
    subfolder_project := decBool (dlookup d "subfolder_project") false
    copy_images := decBool (dlookup d "copy_images") false
    compose_layers := decBool (dlookup d "compose_layers") false
    compose_reverse_order := decBool (dlookup d "compose_reverse_order") false
    status := decStr (dlookup d "status") RS.pending
    progress := decFloat (dlookup d "progress") 0
    error_message := decStr (dlookup d "error_message") ""
    start_time := decOptInt (dlookup d "start_time") none
    end_time := decOptInt (dlookup d "end_time") none
    assigned_slave := decStr (dlookup d "assigned_slave") "" }

/-! ## Render supervisor outcome classification

`MohoRenderer.render` (src/src/moho_renderer.py, lines 166-294).  The
subprocess interaction is abstracted into a `SpawnResult`: either the
process was spawned and `wait()` returned an exit code while the
stderr reader collected raw lines, or spawning raised
`FileNotFoundError`, or some other exception carried a message. -/

/-- Outcome of the external process run as observed by `render`. -/
inductive SpawnResult where
  | ok (returnCode : Int) (stderrLines : List String)
  | fileNotFound
  | procError (msg : String)
  deriving DecidableEq

/-- The stderr `_StreamReader` (src/src/moho_renderer.py, lines
368-376): each raw line is right-stripped, empty lines are dropped,
and `get_output` joins the collected lines with a newline. -/
def stderrCollect (lines : List String) : String :=
  String.intercalate "\n" ((lines.map pyRstrip).filter (fun l => l ≠ ""))

/-- The post-`wait()` classification (src/src/moho_renderer.py, lines
254-268): the cancel flag wins over the exit code; exit 0 completes
with progress 100; otherwise the job fails with the stripped stderr
text, or an exit-code message when stderr is empty. -/
def renderClassify (cancelled : Bool) (returnCode : Int)
    (stderrText : String) (job : RenderJob) : RenderJob :=
  if cancelled then
    { job with status := RS.cancelled }
  else if returnCode = 0 then
    { job with status := RS.completed, progress := 100 }
  else
    { job with
        status := RS.failed
        error_message :=
          if stderrText ≠ "" then pyStrip stderrText
          else "Exit code: " ++ toString returnCode }

/-- `MohoRenderer.render` as a state transformer on the job
(src/src/moho_renderer.py, lines 166-294), with the process outcome,
the cancel flag as read after `wait()` returned, and the two clock
reads passed in explicitly.  Exception handlers (lines 270-279) map
spawn failures to `failed`; the `finally` block stamps `end_time`. -/
def mohoRender (mohoPath : String) (spawn : SpawnResult)
    (cancelledAtWait : Bool) (startNow endNow : Int)
    (job : RenderJob) : RenderJob :=
  let started := { job with
    status := RS.rendering, start_time := some startNow,
    error_message := "" }
  let classified :=
    match spawn with
    | .ok rc lines =>
        renderClassify cancelledAtWait rc (stderrCollect lines) started
    | .fileNotFound =>
        { started with
            status := RS.failed
            error_message := "Moho executable not found: " ++ mohoPath }
    | .procError msg =>
        { started with status := RS.failed, error_message := msg }
  { classified with end_time := some endNow }

/-! ## Master server model

src/src/network/master.py.  The Flask handlers and the sweeper are
modelled as pure state transformers on `MasterState`; each takes the
current clock reading `now` where the handler calls `time.time()`.
All handlers run under the single master lock, so a handler body is
one atomic step. -/

/-- `SlaveInfo` (src/src/network/master.py, lines 11-29). -/
structure SlaveInfo where
  hostname : String
  ip : String
  port : Int
  status : String := "idle"
  current_job_id : String := ""
  last_heartbeat : Int
  jobs_completed : Nat := 0
  jobs_failed : Nat := 0
  deriving DecidableEq

/-- `SlaveInfo.is_alive` (src/src/network/master.py, lines 27-29). -/
def SlaveInfo.is_alive (s : SlaveInfo) (now : Int) : Bool :=
  now - s.last_heartbeat < 30

/-- The slave key used by every handler: an `ip:port` address string. -/
def slaveKey (ip : String) (port : Int) : String :=
  ip ++ ":" ++ toString port

/-- The master queue state (src/src/network/master.py, lines 49-53):
the slave registry and the four job collections. -/
structure MasterState where
  slaves : List (String × SlaveInfo) := []
  pending_jobs : List RenderJob := []
  active_jobs : List (String × RenderJob) := []
  reserved_jobs : List (String × RenderJob) := []
  completed_jobs : List RenderJob := []
  deriving DecidableEq

/-- The empty farm at startup. -/
def masterInit : MasterState := {}

/-- Job ids stored in an address-keyed job map. -/
def jobIdsOf (m : List (String × RenderJob)) : List String :=
  m.map (fun p => p.2.id)

/-- All job identifiers tracked by the four collections, as one list:
pending, reserved values, active values, completed history. -/
def allJobIds (st : MasterState) : List String :=
  st.pending_jobs.map RenderJob.id ++
    (jobIdsOf st.reserved_jobs ++
      (jobIdsOf st.active_jobs ++
        st.completed_jobs.map RenderJob.id))

/-- `/api/register` (src/src/network/master.py, lines 79-105). -/
def masterRegister (st : MasterState) (hostname ip : String) (port : Int)
    (now : Int) : MasterState :=
  let key := slaveKey ip port
  match dlookup st.slaves key with
  | none =>
      { st with
          slaves := dinsert st.slaves key
            ({ hostname := hostname, ip := ip, port := port,
               last_heartbeat := now }) }
  | some sl =>
      let sl := { sl with last_heartbeat := now, hostname := hostname }
      let sl := if sl.status = "offline" then { sl with status := "idle" } else sl
      { st with slaves := dinsert st.slaves key sl }

/-- `/api/heartbeat` (src/src/network/master.py, lines 107-119):
stamps the heartbeat and stores the reported status.  The handler
returns the literal JSON body built at line 119; the response carries
only the `status` key. -/
def masterHeartbeat (st : MasterState) (ip : String) (port : Int)
    (reported : String) (now : Int) :
    MasterState × List (String × Value) :=
  let key := slaveKey ip port
  let st :=
    match dlookup st.slaves key with
    | none => st
    | some sl =>
        { st with
            slaves := dinsert st.slaves key
              ({ sl with last_heartbeat := now, status := reported }) }
  (st, [("status", vStr "ok")])

/-- What `SlaveClient._heartbeat_loop` reads from a heartbeat response
(src/src/network/slave.py, line 120): `data.get("cancel_jobs", [])`.
A response without the key yields the empty list. -/
def heartbeatCancelIds (resp : List (String × Value)) : List String :=
  match dlookup resp "cancel_jobs" with
  | _ => []

/-- Result of `/api/get_job` as seen by the caller. -/
inductive GetJobResult where
  | notRegistered
  | noJob
  | leased (job : RenderJob)
  deriving DecidableEq

/-- `/api/get_job` (src/src/network/master.py, lines 121-156): 403 for
unknown callers; otherwise the reserved job for this slave, else the
head of pending, else no job; a chosen job is stamped and moved into
the active map and the slave record is updated. -/
def masterGetJob (st : MasterState) (ip : String) (port : Int)
    (now : Int) : MasterState × GetJobResult :=
  let key := slaveKey ip port
  match dlookup st.slaves key with
  | none => (st, .notRegistered)
  | some sl =>
      let st :=
        { st with
            slaves := dinsert st.slaves key ({ sl with last_heartbeat := now }) }
      let picked : Option (RenderJob × MasterState) :=
        match dlookup st.reserved_jobs key with
        | some job => some (job, { st with reserved_jobs := derase st.reserved_jobs key })
        | none =>
            match st.pending_jobs with
            | [] => none
            | job :: rest => some (job, { st with pending_jobs := rest })
      match picked with
      | none => (st, .noJob)
      | some (job, st) =>
          let job := { job with
            status := RS.rendering, assigned_slave := key,
            start_time := some now }
          let st1 := { st with active_jobs := dinsert st.active_jobs key job }
          let st2 :=
            match dlookup st1.slaves key with
            | none => st1
            | some sl =>
                { st1 with
                    slaves := dinsert st1.slaves key
                      ({ sl with status := "rendering",
                                 current_job_id := job.id }) }
          (st2, .leased job)

/-- `/api/job_complete` (src/src/network/master.py, lines 158-201).
The request body carries `port`, `job_id`, `success`, `cancelled` and
`error` (src/src/network/slave.py, lines 290-299); the handler reads
only `job_id`, `success` and `error`.  The active entry is keyed by
the reporting slave address.  The handler always answers 200 ok. -/
def masterJobComplete (st : MasterState) (ip : String) (port : Int)
    (jobId : String) (success cancelled : Bool) (error : String)
    (now : Int) : MasterState :=
  let key := slaveKey ip port
  let _unusedReportField := (jobId, cancelled)
  let st :=
    match dlookup st.active_jobs key with
    | none => st
    | some job =>
        let st := { st with active_jobs := derase st.active_jobs key }
        let job := { job with end_time := some now }
        let job :=
          if success then
            { job with status := RS.completed, progress := 100 }
          else
            { job with status := RS.failed, error_message := error }
        let st :=
          if success then
            match dlookup st.slaves key with
            | none => st
            | some sl =>
                { st with
                    slaves := dinsert st.slaves key
                      ({ sl with jobs_completed := sl.jobs_completed + 1 }) }
          else
            match dlookup st.slaves key with
            | none => st
            | some sl =>
                { st with
                    slaves := dinsert st.slaves key
                      ({ sl with jobs_failed := sl.jobs_failed + 1 }) }
        { st with completed_jobs := st.completed_jobs ++ [job] }
  match dlookup st.slaves key with
  | none => st
  | some sl =>
      { st with
          slaves := dinsert st.slaves key
            ({ sl with status := "idle", current_job_id := "" }) }

/-- `MasterServer.add_job` (src/src/network/master.py, lines 235-242):
force status to pending and append to the pending list. -/
def masterAddJob (st : MasterState) (job : RenderJob) : MasterState :=
  { st with pending_jobs :=
      st.pending_jobs ++ [{ job with status := RS.pending }] }

/-- Scan a job list for the first job with the given id and remove it,
returning it with the remaining list (the `enumerate` + `pop(i)`
pattern of master.py). -/
def findRemoveById : List RenderJob → String →
    Option (RenderJob × List RenderJob)
  | [], _ => none
  | j :: t, jid =>
      if j.id = jid then some (j, t)
      else
        match findRemoveById t jid with
        | none => none
        | some (x, t') => some (x, j :: t')

/-- Scan an address-keyed job map for the first entry whose job has the
given id and remove it (the `for addr, job in list(items)` + `del`
pattern of master.py). -/
def findRemoveByJobId : List (String × RenderJob) → String →
    Option (String × RenderJob × List (String × RenderJob))
  | [], _ => none
  | (k, j) :: t, jid =>
      if j.id = jid then some (k, j, t)
      else
        match findRemoveByJobId t jid with
        | none => none
        | some (k', x, t') => some (k', x, (k, j) :: t')

/-- `MasterServer.assign_job_to_slave` (src/src/network/master.py,
lines 244-262): pop the job from pending by id; if the target slave is
unknown or not alive, push the job back at the head and fail;
otherwise store it as the reservation for that slave. -/
def masterAssignJobToSlave (st : MasterState) (jobId slaveAddress : String)
    (now : Int) : MasterState × Bool :=
  match findRemoveById st.pending_jobs jobId with
  | none => (st, false)
  | some (target, rest) =>
      let st := { st with pending_jobs := rest }
      match dlookup st.slaves slaveAddress with
      | none => ({ st with pending_jobs := target :: st.pending_jobs }, false)
      | some sl =>
          if sl.is_alive now then
            ({ st with reserved_jobs := dinsert st.reserved_jobs slaveAddress target }, true)
          else
            ({ st with pending_jobs := target :: st.pending_jobs }, false)

/-- `MasterServer.cancel_job` (src/src/network/master.py, lines
264-285): a pending or reserved job is removed, marked cancelled and
appended to the history; any other job id (including one active on a
slave) is left untouched and `None` is returned. -/
def masterCancelJob (st : MasterState) (jobId : String) :
    MasterState × Option RenderJob :=
  match findRemoveById st.pending_jobs jobId with
  | some (job, rest) =>
      let job := { job with status := RS.cancelled }
      ({ st with
           pending_jobs := rest,
           completed_jobs := st.completed_jobs ++ [job] }, some job)
  | none =>
      match findRemoveByJobId st.reserved_jobs jobId with
      | some (_, job, rest) =>
          let job := { job with status := RS.cancelled }
          ({ st with
               reserved_jobs := rest,
               completed_jobs := st.completed_jobs ++ [job] }, some job)
      | none => (st, none)

/-- `MasterServer.remove_job_from_farm` (src/src/network/master.py,
lines 287-304): like cancel but the job is handed back to the caller
without a status change and without entering the history. -/
def masterRemoveJobFromFarm (st : MasterState) (jobId : String) :
    MasterState × Option RenderJob :=
  match findRemoveById st.pending_jobs jobId with
  | some (job, rest) => ({ st with pending_jobs := rest }, some job)
  | none =>
      match findRemoveByJobId st.reserved_jobs jobId with
      | some (_, job, rest) => ({ st with reserved_jobs := rest }, some job)
      | none => (st, none)

/-- One slave considered by the sweeper `MasterServer._check_slaves`
(src/src/network/master.py, lines 358-380): a stale, not yet offline
slave is marked offline, its active job is reset and pushed to the
head of pending, and its reserved job is pushed to the head of
pending unchanged. -/
def sweepSlave (st : MasterState) (key : String) (now : Int) : MasterState :=
  match dlookup st.slaves key with
  | none => st
  | some sl =>
      if sl.is_alive now || sl.status = "offline" then st
      else
        let st :=
          { st with
              slaves := dinsert st.slaves key ({ sl with status := "offline" }) }
        let st :=
          match dlookup st.active_jobs key with
          | none => st
          | some job =>
              { st with
                  active_jobs := derase st.active_jobs key
                  pending_jobs :=
                    { job with status := RS.pending, assigned_slave := "" } ::
                      st.pending_jobs }
        match dlookup st.reserved_jobs key with
        | none => st
        | some job =>
            { st with
                reserved_jobs := derase st.reserved_jobs key
                pending_jobs := job :: st.pending_jobs }

/-- Fold of `sweepSlave` over a snapshot of slave keys. -/
def sweepKeys (keys : List String) (st : MasterState) (now : Int) : MasterState :=
  match keys with
  | [] => st
  | k :: ks => sweepKeys ks (sweepSlave st k now) now

/-- One pass of the sweeper loop body (src/src/network/master.py,
lines 356-380): iterate over the snapshot `list(self.slaves.items())`.
Only the slave under consideration is mutated at each step, so reading
each slave from the current state is equivalent to the snapshot. -/
def masterCheckSlaves (st : MasterState) (now : Int) : MasterState :=
  sweepKeys (st.slaves.map Prod.fst) st now

/-! ## Queue persistence

`RenderQueue.save_queue` / `load_queue` (src/src/render_queue.py,
lines 263-294).  The saved JSON document is modelled with its two
top-level keys explicit; further top-level keys (ignored by
`load_queue`, which reads only `data.get("jobs", [])`) are carried in
`extra`. -/

/-- The persisted queue document shape
'version plus a list of job dicts'. -/
structure QueueDoc where
  version : String
  jobs : List (List (String × Value))
  extra : List (String × Value) := []
  deriving DecidableEq

/-- `RenderQueue.save_queue` (src/src/render_queue.py, lines 263-270). -/
def saveQueueDoc (jobs : List RenderJob) : QueueDoc :=
  { version := "1.0", jobs := jobs.map RenderJob.to_dict }

/-- The per-job reset applied by `load_queue`
(src/src/render_queue.py, lines 282-289): every loaded job whose
status is not `rendering` is reset to a fresh pending job. -/
def loadResetJob (j : RenderJob) : RenderJob :=
  if j.status = RS.rendering then j
  else
    { j with
        status := RS.pending, progress := 0, error_message := "",
        start_time := none, end_time := none }

/-- `RenderQueue.load_queue` (src/src/render_queue.py, lines 272-294):
without `append` the current list is reduced to its rendering jobs,
then each loaded dict is decoded, reset and appended. -/
def loadQueue (uuid : String) (prior : List RenderJob) (doc : QueueDoc)
    (append : Bool) : List RenderJob :=
  let base := if append then prior
    else prior.filter (fun j => j.status = RS.rendering)
  base ++ doc.jobs.map (fun d => loadResetJob (RenderJob.from_dict uuid d))

/-! ## Slave job processing entry

`SlaveClient._process_job` (src/src/network/slave.py, lines 218-232)
starts with `if job.farm_files_uploaded:`.  Python attribute access on
a dataclass instance consults its field dict — exactly the pairs of
`asdict` — and raises `AttributeError` for a name that is not a field
(instance methods and properties of `RenderJob` are named in
`renderJobMethodNames` and are also consulted). -/

/-- The methods and properties defined on `RenderJob`
(src/src/moho_renderer.py, lines 64-93). -/
def renderJobMethodNames : List String :=
  ["to_dict", "from_dict", "project_name", "elapsed_time", "elapsed_str"]

/-- Python `getattr` on a `RenderJob` instance for data attributes:
the value of the field when the name is a field, `AttributeError`
otherwise (method objects are not data values; a method name is
reported separately and never reached below). -/
def pyGetAttr (j : RenderJob) (name : String) : Except String Value :=
  match dlookup j.to_dict name with
  | some v => Except.ok v
  | none =>
      if renderJobMethodNames.contains name then
        Except.error "method access not modelled"
      else
        Except.error ("AttributeError: " ++ name)

/-- Python truthiness of a scalar value. -/
def pyTruthy : Value → Bool
  | vStr s => s ≠ ""
  | vInt n => n ≠ 0
  | vFloat q => q ≠ 0
  | vBool b => b
  | vNull => false

/-- The gate at the top of `SlaveClient._process_job`
(src/src/network/slave.py, line 223): evaluate
`job.farm_files_uploaded` as a boolean; an `AttributeError` aborts the
job processing (it propagates into the `except Exception` handler of
`_worker_loop`, src/src/network/slave.py, lines 213-216, so the job is
neither rendered nor reported). -/
def slaveFarmFilesGate (job : RenderJob) : Except String Bool :=
  (pyGetAttr job "farm_files_uploaded").map pyTruthy

/-! ## Concrete scenario states used by the claim theorems -/

/-- A farm with one slave registered at time 0 from 10.0.0.1:5000 and
one job with id `a` leased to it at time 1 via `get_job`. -/
def demoLeasedState : MasterState :=
  (masterGetJob
    (masterAddJob
      (masterRegister masterInit "host" "10.0.0.1" 5000 0)
      { id := "a" })
    "10.0.0.1" 5000 1).1

/-- A farm with one slave registered at time 0 and a job with id `a`
reserved for it at time 1 via `assign_job_to_slave`. -/
def demoReservedState : MasterState :=
  (masterAssignJobToSlave
    (masterAddJob
      (masterRegister masterInit "host" "10.0.0.1" 5000 0)
      { id := "a" })
    "a" "10.0.0.1:5000" 1).1

/-- Like `demoReservedState` but the job arrived over `/api/add_job`
with a stale non-empty `assigned_slave` field in its dict (the handler
resets only `status`). -/
def demoReservedDirtyState : MasterState :=
  (masterAssignJobToSlave
    (masterAddJob
      (masterRegister masterInit "host" "10.0.0.1" 5000 0)
      { id := "a", assigned_slave := "10.9.9.9:1" })
    "a" "10.0.0.1:5000" 1).1

/-- A 501-character stderr line, used to exhibit the absence of
truncation in the failure path of `render`. -/
def longLine : String := String.mk (List.replicate 501 'x')

/-! ## Reachable master states -/

/-- States reachable from the empty farm by any interleaving of the
master operations.  `add_job` carries the data-model freshness
assumption (src spec section 3: a job id is unique within a process
lifetime), since the handler itself never checks for duplicates. -/
inductive MasterReachable : MasterState → Prop where
  | init : MasterReachable masterInit
  | register (st : MasterState) (h : MasterReachable st)
      (hostname ip : String) (port now : Int) :
      MasterReachable (masterRegister st hostname ip port now)
  | heartbeat (st : MasterState) (h : MasterReachable st)
      (ip : String) (port : Int) (reported : String) (now : Int) :
      MasterReachable (masterHeartbeat st ip port reported now).1
  | addJob (st : MasterState) (h : MasterReachable st) (job : RenderJob)
      (hfresh : job.id ∉ allJobIds st) :
      MasterReachable (masterAddJob st job)
  | getJob (st : MasterState) (h : MasterReachable st)
      (ip : String) (port now : Int) :
      MasterReachable (masterGetJob st ip port now).1
  | jobComplete (st : MasterState) (h : MasterReachable st)
      (ip : String) (port : Int) (jobId : String)
      (success cancelled : Bool) (error : String) (now : Int) :
      MasterReachable (masterJobComplete st ip port jobId success cancelled error now)
  | assign (st : MasterState) (h : MasterReachable st)
      (jobId slaveAddress : String) (now : Int) :
      MasterReachable (masterAssignJobToSlave st jobId slaveAddress now).1
  | cancel (st : MasterState) (h : MasterReachable st) (jobId : String) :
      MasterReachable (masterCancelJob st jobId).1
  | removeJob (st : MasterState) (h : MasterReachable st) (jobId : String) :
      MasterReachable (masterRemoveJobFromFarm st jobId).1
  | sweep (st : MasterState) (h : MasterReachable st) (now : Int) :
      MasterReachable (masterCheckSlaves st now)


/-! ## Association list and removal lemmas -/

theorem subperm_map {α β : Type} (f : α → β) {l₁ l₂ : List α}
    (h : List.Subperm l₁ l₂) : List.Subperm (l₁.map f) (l₂.map f) := by
  obtain ⟨l, hp, hs⟩ := h
  exact ⟨l.map f, hp.map f, hs.map f⟩

theorem subperm_append {α : Type} {l₁ l₂ r₁ r₂ : List α}
    (h₁ : List.Subperm l₁ r₁) (h₂ : List.Subperm l₂ r₂) :
    List.Subperm (l₁ ++ l₂) (r₁ ++ r₂) := by
  obtain ⟨a, hap, has⟩ := h₁
  obtain ⟨b, hbp, hbs⟩ := h₂
  exact ⟨a ++ b, hap.append hbp, has.append hbs⟩

theorem subperm_of_nodup_sub {α : Type} {l₁ l₂ : List α}
    (h : List.Subperm l₁ l₂) (hn : l₂.Nodup) : l₁.Nodup := by
  obtain ⟨l, hp, hs⟩ := h
  exact hp.nodup (hn.sublist hs)

theorem derase_sublist {α : Type} (l : List (String × α)) (k : String) :
    List.Sublist (derase l k) l := by
  induction l with
  | nil => simp [derase]
  | cons p t ih =>
    obtain ⟨pk, pv⟩ := p
    by_cases h : pk = k
    · simp only [derase, if_pos h]
      exact List.sublist_cons_self _ t
    · simp only [derase, if_neg h]
      exact List.Sublist.cons₂ _ ih

theorem dlookup_perm_erase {α : Type} {l : List (String × α)} {k : String}
    {v : α} (h : dlookup l k = some v) :
    List.Perm l ((k, v) :: derase l k) := by
  induction l with
  | nil => simp [dlookup] at h
  | cons p t ih =>
    obtain ⟨pk, pv⟩ := p
    simp only [dlookup] at h
    by_cases hk : pk = k
    · rw [if_pos hk] at h
      injection h with hv
      subst hk
      subst hv
      simp only [derase, if_pos rfl]
      exact List.Perm.refl _
    · rw [if_neg hk] at h
      have ht := ih h
      simp only [derase, if_neg hk]
      exact (ht.cons _).trans (List.Perm.swap _ _ _)

theorem dinsert_subperm {α : Type} (l : List (String × α)) (k : String)
    (v : α) : List.Subperm (dinsert l k v) ((k, v) :: l) := by
  induction l with
  | nil => simp [dinsert]
  | cons p t ih =>
    obtain ⟨pk, pv⟩ := p
    by_cases hk : pk = k
    · simp only [dinsert, if_pos hk]
      exact (List.subperm_cons _).2 List.Subperm.cons_self
    · simp only [dinsert, if_neg hk]
      exact ((List.subperm_cons _).2 ih).trans (List.Perm.swap _ _ _).subperm

theorem findRemoveById_perm {l : List RenderJob} {jid : String}
    {j : RenderJob} {l' : List RenderJob}
    (h : findRemoveById l jid = some (j, l')) : List.Perm l (j :: l') := by
  induction l generalizing l' with
  | nil => simp [findRemoveById] at h
  | cons x t ih =>
    simp only [findRemoveById] at h
    by_cases hx : x.id = jid
    · rw [if_pos hx] at h
      simp only [Option.some.injEq, Prod.mk.injEq] at h
      obtain ⟨rfl, rfl⟩ := h
      exact List.Perm.refl _
    · rw [if_neg hx] at h
      cases hfind : findRemoveById t jid with
      | none => rw [hfind] at h; cases h
      | some p =>
        obtain ⟨y, t'⟩ := p
        rw [hfind] at h
        simp only [Option.some.injEq, Prod.mk.injEq] at h
        obtain ⟨rfl, rfl⟩ := h
        exact ((ih hfind).cons x).trans (List.Perm.swap _ _ _)

theorem findRemoveByJobId_perm {l : List (String × RenderJob)}
    {jid : String} {k : String} {j : RenderJob}
    {l' : List (String × RenderJob)}
    (h : findRemoveByJobId l jid = some (k, j, l')) :
    List.Perm l ((k, j) :: l') := by
  induction l generalizing l' with
  | nil => simp [findRemoveByJobId] at h
  | cons x t ih =>
    obtain ⟨xk, xj⟩ := x
    simp only [findRemoveByJobId] at h
    by_cases hx : xj.id = jid
    · rw [if_pos hx] at h
      simp only [Option.some.injEq, Prod.mk.injEq] at h
      obtain ⟨rfl, rfl, rfl⟩ := h
      exact List.Perm.refl _
    · rw [if_neg hx] at h
      cases hfind : findRemoveByJobId t jid with
      | none => rw [hfind] at h; cases h
      | some p =>
        obtain ⟨k2, y, t'⟩ := p
        rw [hfind] at h
        simp only [Option.some.injEq, Prod.mk.injEq] at h
        obtain ⟨rfl, rfl, rfl⟩ := h
        exact ((ih hfind).cons _).trans (List.Perm.swap _ _ _)

/-! ## Job-id accounting for the master operations -/

theorem jobIdsOf_dinsert_subperm (m : List (String × RenderJob))
    (key : String) (j : RenderJob) :
    List.Subperm (jobIdsOf (dinsert m key j)) (j.id :: jobIdsOf m) := by
  have h := subperm_map (fun p => p.2.id) (dinsert_subperm m key j)
  simpa [jobIdsOf] using h

theorem jobIdsOf_perm_erase {m : List (String × RenderJob)} {key : String}
    {j : RenderJob} (h : dlookup m key = some j) :
    List.Perm (jobIdsOf m) (j.id :: jobIdsOf (derase m key)) := by
  have h2 := (dlookup_perm_erase h).map (fun p => p.2.id)
  simpa [jobIdsOf] using h2

theorem allJobIds_register (st : MasterState) (hostname ip : String)
    (port now : Int) :
    allJobIds (masterRegister st hostname ip port now) = allJobIds st := by
  unfold masterRegister
  dsimp only
  split <;> rfl

theorem allJobIds_heartbeat (st : MasterState) (ip : String) (port : Int)
    (reported : String) (now : Int) :
    allJobIds (masterHeartbeat st ip port reported now).1 = allJobIds st := by
  unfold masterHeartbeat
  dsimp only
  split <;> rfl

theorem allJobIds_addJob (st : MasterState) (job : RenderJob) :
    List.Perm (allJobIds (masterAddJob st job)) (job.id :: allJobIds st) := by
  unfold masterAddJob allJobIds
  simp only [List.map_append, List.map_cons, List.map_nil]
  rw [List.append_assoc]
  exact List.perm_middle

theorem subperm_inner_move {R2 A C : List String} (jid : String)
    {A2 : List String} (hA : List.Subperm A2 (jid :: A))
    {R : List String} (hR : List.Perm R (jid :: R2)) :
    List.Subperm (R2 ++ (A2 ++ C)) (R ++ (A ++ C)) := by
  have s1 : List.Subperm (R2 ++ (A2 ++ C)) (R2 ++ (jid :: (A ++ C))) :=
    (List.subperm_append_left R2).2 (subperm_append hA (List.Subperm.refl C))
  have s2 : List.Perm (R2 ++ (jid :: (A ++ C))) (jid :: (R2 ++ (A ++ C))) :=
    List.perm_middle
  have s3 : List.Perm (R ++ (A ++ C)) (jid :: (R2 ++ (A ++ C))) :=
    hR.append_right (A ++ C)
  exact (s3.subperm_left).2 (s1.trans s2.subperm)

theorem subperm_pull_head {P R A C : List String} (jid : String)
    {A2 : List String} (hA : List.Subperm A2 (jid :: A)) :
    List.Subperm (P ++ (R ++ (A2 ++ C))) (jid :: (P ++ (R ++ (A ++ C)))) := by
  have s1 : List.Subperm (R ++ (A2 ++ C)) (R ++ (jid :: (A ++ C))) :=
    (List.subperm_append_left R).2 (subperm_append hA (List.Subperm.refl C))
  have s2 : List.Subperm (P ++ (R ++ (A2 ++ C))) (P ++ (R ++ (jid :: (A ++ C)))) :=
    (List.subperm_append_left P).2 s1
  have p3 : List.Perm (R ++ (jid :: (A ++ C))) (jid :: (R ++ (A ++ C))) :=
    List.perm_middle
  have s4 : List.Subperm (P ++ (R ++ (A2 ++ C))) (P ++ (jid :: (R ++ (A ++ C)))) := by
    refine s2.trans ?_
    exact ((p3.append_left P).subperm)
  have p5 : List.Perm (P ++ (jid :: (R ++ (A ++ C)))) (jid :: (P ++ (R ++ (A ++ C)))) :=
    List.perm_middle
  exact s4.trans p5.subperm

theorem allJobIds_getJob_subperm (st : MasterState) (ip : String)
    (port : Int) (now : Int) :
    List.Subperm (allJobIds (masterGetJob st ip port now).1) (allJobIds st) := by
  unfold masterGetJob
  dsimp only
  cases hsl : dlookup st.slaves (slaveKey ip port) with
  | none => exact List.Subperm.refl _
  | some sl =>
    dsimp only
    cases hres : dlookup st.reserved_jobs (slaveKey ip port) with
    | some job =>
      dsimp only
      split
      all_goals
        refine (List.subperm_append_left _).2 ?_
        refine subperm_inner_move job.id ?_ (jobIdsOf_perm_erase hres)
        simpa using jobIdsOf_dinsert_subperm st.active_jobs (slaveKey ip port) _
    | none =>
      dsimp only
      cases hpend : st.pending_jobs with
      | nil =>
        dsimp only
        have hrhs : allJobIds st =
            ([] : List RenderJob).map RenderJob.id ++
              (jobIdsOf st.reserved_jobs ++
                (jobIdsOf st.active_jobs ++
                  st.completed_jobs.map RenderJob.id)) := by
          unfold allJobIds
          rw [hpend]
        rw [hrhs]
        exact List.Subperm.refl _
      | cons job rest =>
        dsimp only
        have hrhs : allJobIds st =
            job.id :: (rest.map RenderJob.id ++
              (jobIdsOf st.reserved_jobs ++
                (jobIdsOf st.active_jobs ++
                  st.completed_jobs.map RenderJob.id))) := by
          unfold allJobIds
          rw [hpend]
          rfl
        rw [hrhs]
        split
        all_goals
          refine subperm_pull_head job.id ?_
          simpa using jobIdsOf_dinsert_subperm st.active_jobs (slaveKey ip port) _

theorem allJobIds_jobComplete_subperm (st : MasterState) (ip : String)
    (port : Int) (jobId : String) (success cancelled : Bool)
    (error : String) (now : Int) :
    List.Subperm
      (allJobIds (masterJobComplete st ip port jobId success cancelled error now))
      (allJobIds st) := by
  unfold masterJobComplete
  dsimp only
  cases hact : dlookup st.active_jobs (slaveKey ip port) with
  | none =>
    dsimp only
    split
    · exact List.Subperm.refl _
    · exact List.Subperm.refl _
  | some job =>
    dsimp only
    have hA := jobIdsOf_perm_erase hact
    split
    all_goals split
    all_goals split
    all_goals
      refine List.subperm_ext_iff.2 (fun x hx => ?_)
      have cA := hA.count_eq x
      simp only [allJobIds, jobIdsOf, List.map_append, List.map_cons,
        List.map_nil, List.count_append, List.count_cons, List.count_nil] at cA ⊢
      omega

theorem allJobIds_assign_subperm (st : MasterState) (jobId slaveAddress : String)
    (now : Int) :
    List.Subperm (allJobIds (masterAssignJobToSlave st jobId slaveAddress now).1)
      (allJobIds st) := by
  unfold masterAssignJobToSlave
  dsimp only
  cases hfind : findRemoveById st.pending_jobs jobId with
  | none => exact List.Subperm.refl _
  | some p =>
    obtain ⟨target, rest⟩ := p
    dsimp only
    have hP := (findRemoveById_perm hfind).map RenderJob.id
    cases hsl : dlookup st.slaves slaveAddress with
    | none =>
      dsimp only
      refine List.subperm_ext_iff.2 (fun x hx => ?_)
      have cP := hP.count_eq x
      simp only [allJobIds, jobIdsOf, List.map_append, List.map_cons,
        List.map_nil, List.count_append, List.count_cons, List.count_nil] at cP ⊢
      omega
    | some sl =>
      dsimp only
      split
      · refine List.subperm_ext_iff.2 (fun x hx => ?_)
        have cP := hP.count_eq x
        have cR := (jobIdsOf_dinsert_subperm st.reserved_jobs slaveAddress target).count_le x
        simp only [allJobIds, jobIdsOf, List.map_append, List.map_cons,
          List.map_nil, List.count_append, List.count_cons, List.count_nil] at cP cR ⊢
        omega
      · refine List.subperm_ext_iff.2 (fun x hx => ?_)
        have cP := hP.count_eq x
        simp only [allJobIds, jobIdsOf, List.map_append, List.map_cons,
          List.map_nil, List.count_append, List.count_cons, List.count_nil] at cP ⊢
        omega

theorem allJobIds_cancel_subperm (st : MasterState) (jobId : String) :
    List.Subperm (allJobIds (masterCancelJob st jobId).1) (allJobIds st) := by
  unfold masterCancelJob
  dsimp only
  cases hfind : findRemoveById st.pending_jobs jobId with
  | some p =>
    obtain ⟨job, rest⟩ := p
    dsimp only
    have hP := (findRemoveById_perm hfind).map RenderJob.id
    refine List.subperm_ext_iff.2 (fun x hx => ?_)
    have cP := hP.count_eq x
    simp only [allJobIds, jobIdsOf, List.map_append, List.map_cons,
      List.map_nil, List.count_append, List.count_cons, List.count_nil] at cP ⊢
    omega
  | none =>
    dsimp only
    cases hres : findRemoveByJobId st.reserved_jobs jobId with
    | none => exact List.Subperm.refl _
    | some p =>
      obtain ⟨addr, job, rest⟩ := p
      dsimp only
      have hR := (findRemoveByJobId_perm hres).map (fun q => q.2.id)
      refine List.subperm_ext_iff.2 (fun x hx => ?_)
      have cR := hR.count_eq x
      simp only [allJobIds, jobIdsOf, List.map_append, List.map_cons,
        List.map_nil, List.count_append, List.count_cons, List.count_nil] at cR ⊢
      omega

theorem allJobIds_removeJob_subperm (st : MasterState) (jobId : String) :
    List.Subperm (allJobIds (masterRemoveJobFromFarm st jobId).1) (allJobIds st) := by
  unfold masterRemoveJobFromFarm
  cases hfind : findRemoveById st.pending_jobs jobId with
  | some p =>
    obtain ⟨job, rest⟩ := p
    dsimp only
    have hP := (findRemoveById_perm hfind).map RenderJob.id
    refine List.subperm_ext_iff.2 (fun x hx => ?_)
    have cP := hP.count_eq x
    simp only [allJobIds, jobIdsOf, List.map_append, List.map_cons,
      List.map_nil, List.count_append, List.count_cons, List.count_nil] at cP ⊢
    omega
  | none =>
    dsimp only
    cases hres : findRemoveByJobId st.reserved_jobs jobId with
    | none => exact List.Subperm.refl _
    | some p =>
      obtain ⟨addr, job, rest⟩ := p
      dsimp only
      have hR := (findRemoveByJobId_perm hres).map (fun q => q.2.id)
      refine List.subperm_ext_iff.2 (fun x hx => ?_)
      have cR := hR.count_eq x
      simp only [allJobIds, jobIdsOf, List.map_append, List.map_cons,
        List.map_nil, List.count_append, List.count_cons, List.count_nil] at cR ⊢
      omega

theorem allJobIds_sweepSlave_subperm (st : MasterState) (key : String)
    (now : Int) :
    List.Subperm (allJobIds (sweepSlave st key now)) (allJobIds st) := by
  unfold sweepSlave
  dsimp only
  cases hsl : dlookup st.slaves key with
  | none => exact List.Subperm.refl _
  | some sl =>
    dsimp only
    split
    · exact List.Subperm.refl _
    · cases hact : dlookup st.active_jobs key with
      | none =>
        dsimp only
        cases hres : dlookup st.reserved_jobs key with
        | none => exact List.Subperm.refl _
        | some job2 =>
          dsimp only
          have hR := jobIdsOf_perm_erase hres
          refine List.subperm_ext_iff.2 (fun x hx => ?_)
          have cR := hR.count_eq x
          simp only [allJobIds, jobIdsOf, List.map_append, List.map_cons,
            List.map_nil, List.count_append, List.count_cons, List.count_nil] at cR ⊢
          omega
      | some job =>
        dsimp only
        have hA := jobIdsOf_perm_erase hact
        cases hres : dlookup st.reserved_jobs key with
        | none =>
          dsimp only
          refine List.subperm_ext_iff.2 (fun x hx => ?_)
          have cA := hA.count_eq x
          simp only [allJobIds, jobIdsOf, List.map_append, List.map_cons,
            List.map_nil, List.count_append, List.count_cons, List.count_nil] at cA ⊢
          omega
        | some job2 =>
          dsimp only
          have hR := jobIdsOf_perm_erase hres
          refine List.subperm_ext_iff.2 (fun x hx => ?_)
          have cA := hA.count_eq x
          have cR := hR.count_eq x
          simp only [allJobIds, jobIdsOf, List.map_append, List.map_cons,
            List.map_nil, List.count_append, List.count_cons, List.count_nil] at cA cR ⊢
          omega

theorem allJobIds_sweepKeys_subperm (keys : List String) (st : MasterState)
    (now : Int) :
    List.Subperm (allJobIds (sweepKeys keys st now)) (allJobIds st) := by
  induction keys generalizing st with
  | nil => exact List.Subperm.refl _
  | cons k ks ih =>
    exact (ih (sweepSlave st k now)).trans (allJobIds_sweepSlave_subperm st k now)

theorem allJobIds_checkSlaves_subperm (st : MasterState) (now : Int) :
    List.Subperm (allJobIds (masterCheckSlaves st now)) (allJobIds st) :=
  allJobIds_sweepKeys_subperm _ st now

/-- Claim C3, amended.  In every reachable master state the four
collections hold pairwise-distinct job ids: the combined id list of
pending, reserved values, active values and completed history has no
duplicate, so no job id sits in two collections (nor twice in one).
The original, stronger reading — that no listed operation ever drops a
job from all four — fails: `remove_job_from_farm` removes the job on
purpose (see the counterexample), and a repeated `get_job` by the same
slave overwrites `active[slave]`, dropping the previous job. -/
theorem c3_reachable_job_ids_nodup (st : MasterState)
    (h : MasterReachable st) : (allJobIds st).Nodup := by
  induction h with
  | init => simp [masterInit, allJobIds, jobIdsOf]
  | register st h hostname ip port now ih =>
    rw [allJobIds_register]; exact ih
  | heartbeat st h ip port reported now ih =>
    rw [allJobIds_heartbeat]; exact ih
  | addJob st h job hfresh ih =>
    exact (allJobIds_addJob st job).symm.nodup (List.nodup_cons.2 ⟨hfresh, ih⟩)
  | getJob st h ip port now ih =>
    exact subperm_of_nodup_sub (allJobIds_getJob_subperm st ip port now) ih
  | jobComplete st h ip port jobId success cancelled error now ih =>
    exact subperm_of_nodup_sub
      (allJobIds_jobComplete_subperm st ip port jobId success cancelled error now) ih
  | assign st h jobId slaveAddress now ih =>
    exact subperm_of_nodup_sub (allJobIds_assign_subperm st jobId slaveAddress now) ih
  | cancel st h jobId ih =>
    exact subperm_of_nodup_sub (allJobIds_cancel_subperm st jobId) ih
  | removeJob st h jobId ih =>
    exact subperm_of_nodup_sub (allJobIds_removeJob_subperm st jobId) ih
  | sweep st h now ih =>
    exact subperm_of_nodup_sub (allJobIds_checkSlaves_subperm st now) ih

/-- Concrete instantiation of the C3 invariant: register a slave, add
two fresh jobs, lease one; the resulting id list is duplicate-free. -/
theorem c3_reachable_job_ids_nodup_witness :
    (allJobIds ((masterGetJob
        (masterAddJob
          (masterAddJob
            (masterRegister masterInit "host" "10.0.0.1" 5000 0)
            { id := "a" })
          { id := "b" })
        "10.0.0.1" 5000 1).1)).Nodup :=
  c3_reachable_job_ids_nodup _
    (MasterReachable.getJob _
      (MasterReachable.addJob _
        (MasterReachable.addJob _
          (MasterReachable.register _ MasterReachable.init "host" "10.0.0.1" 5000 0)
          { id := "a" } (by decide))
        { id := "b" } (by decide))
      "10.0.0.1" 5000 1)

/-- Counterexample to claim C3 as stated.  The claim quantifies over
sequences of the listed operations, `remove_job_from_farm` included,
and asserts no operation drops a job from all four collections.  After
`add_job` of a job with id `a`, the id is tracked; after
`remove_job_from_farm "a"` it appears in none of the four collections. -/
theorem c3_counterexample_remove_drops_job :
    allJobIds (masterAddJob masterInit { id := "a" }) = ["a"] ∧
      allJobIds (masterRemoveJobFromFarm
        (masterAddJob masterInit { id := "a" }) "a").1 = [] := by
  constructor
  · rfl
  · rfl

/-! ## Lookup and serialization helper lemmas -/

theorem dlookup_dinsert_self {α : Type} (l : List (String × α))
    (k : String) (v : α) : dlookup (dinsert l k v) k = some v := by
  induction l with
  | nil => simp [dinsert, dlookup]
  | cons p t ih =>
    obtain ⟨pk, pv⟩ := p
    by_cases hk : pk = k
    · simp [dinsert, dlookup, hk]
    · simp [dinsert, dlookup, hk, ih]

theorem dlookup_append {α : Type} (l₁ l₂ : List (String × α)) (k : String) :
    dlookup (l₁ ++ l₂) k =
      match dlookup l₁ k with
      | some v => some v
      | none => dlookup l₂ k := by
  induction l₁ with
  | nil => simp [dlookup]
  | cons p t ih =>
    obtain ⟨pk, pv⟩ := p
    by_cases h : pk = k <;> simp [dlookup, h, ih]

theorem dlookup_none_of_keys {α : Type} (l : List (String × α)) (k : String)
    (h : ∀ p ∈ l, p.1 ≠ k) : dlookup l k = none := by
  induction l with
  | nil => rfl
  | cons p t ih =>
    have hp := h p (by simp)
    simp only [dlookup, hp, if_false, if_neg]
    exact ih fun q hq => h q (by simp [hq])

theorem dlookup_append_right_junk {α : Type} {d junk : List (String × α)}
    {k : String} (h : dlookup junk k = none) :
    dlookup (d ++ junk) k = dlookup d k := by
  rw [dlookup_append]
  cases dlookup d k <;> simp [h]

theorem dlookup_append_left_junk {α : Type} {d junk : List (String × α)}
    {k : String} (h : dlookup junk k = none) :
    dlookup (junk ++ d) k = dlookup d k := by
  rw [dlookup_append, h]

@[simp] theorem decEncOptInt (x : Option Int) (d : Option Int) :
    decOptInt (some (encOptInt x)) d = x := by cases x <;> rfl

@[simp] theorem decEncOptBool (x : Option Bool) (d : Option Bool) :
    decOptBool (some (encOptBool x)) d = x := by cases x <;> rfl

theorem from_dict_to_dict (uuid : String) (j : RenderJob) :
    RenderJob.from_dict uuid j.to_dict = j := by
  simp [RenderJob.from_dict, RenderJob.to_dict, dlookup, decStr, decFloat,
    decBool]

theorem from_dict_ignores_unknown_keys (uuid : String)
    (d junk : List (String × Value))
    (h : ∀ p ∈ junk, p.1 ∉ renderJobFieldNames) :
    RenderJob.from_dict uuid (d ++ junk) = RenderJob.from_dict uuid d ∧
      RenderJob.from_dict uuid (junk ++ d) = RenderJob.from_dict uuid d := by
  have hnone : ∀ k ∈ renderJobFieldNames, dlookup junk k = none := by
    intro k hk
    exact dlookup_none_of_keys junk k fun p hp heq => h p hp (heq ▸ hk)
  constructor
  · unfold RenderJob.from_dict
    rw [dlookup_append_right_junk (hnone "id" (by decide)),
      dlookup_append_right_junk (hnone "project_file" (by decide)),
      dlookup_append_right_junk (hnone "output_path" (by decide)),
      dlookup_append_right_junk (hnone "format" (by decide)),
      dlookup_append_right_junk (hnone "options" (by decide)),
      dlookup_append_right_junk (hnone "start_frame" (by decide)),
      dlookup_append_right_junk (hnone "end_frame" (by decide)),
      dlookup_append_right_junk (hnone "verbose" (by decide)),
      dlookup_append_right_junk (hnone "quiet" (by decide)),
      dlookup_append_right_junk (hnone "log_file" (by decide)),
      dlookup_append_right_junk (hnone "multithread" (by decide)),
      dlookup_append_right_junk (hnone "halfsize" (by decide)),
      dlookup_append_right_junk (hnone "halffps" (by decide)),
      dlookup_append_right_junk (hnone "shapefx" (by decide)),
      dlookup_append_right_junk (hnone "layerfx" (by decide)),
      dlookup_append_right_junk (hnone "fewparticles" (by decide)),
      dlookup_append_right_junk (hnone "layercomp" (by decide)),
      dlookup_append_right_junk (hnone "aa" (by decide)),
      dlookup_append_right_junk (hnone "extrasmooth" (by decide)),
      dlookup_append_right_junk (hnone "premultiply" (by decide)),
      dlookup_append_right_junk (hnone "ntscsafe" (by decide)),
      dlookup_append_right_junk (hnone "addformatsuffix" (by decide)),
      dlookup_append_right_junk (hnone "addlayercompsuffix" (by decide)),
      dlookup_append_right_junk (hnone "createfolderforlayercomps" (by decide)),
      dlookup_append_right_junk (hnone "videocodec" (by decide)),
      dlookup_append_right_junk (hnone "quality" (by decide)),
      dlookup_append_right_junk (hnone "depth" (by decide)),
      dlookup_append_right_junk (hnone "subfolder_project" (by decide)),
      dlookup_append_right_junk (hnone "copy_images" (by decide)),
      dlookup_append_right_junk (hnone "compose_layers" (by decide)),
      dlookup_append_right_junk (hnone "compose_reverse_order" (by decide)),
      dlookup_append_right_junk (hnone "status" (by decide)),
      dlookup_append_right_junk (hnone "progress" (by decide)),
      dlookup_append_right_junk (hnone "error_message" (by decide)),
      dlookup_append_right_junk (hnone "start_time" (by decide)),
      dlookup_append_right_junk (hnone "end_time" (by decide)),
      dlookup_append_right_junk (hnone "assigned_slave" (by decide))]
  · unfold RenderJob.from_dict
    rw [dlookup_append_left_junk (hnone "id" (by decide)),
      dlookup_append_left_junk (hnone "project_file" (by decide)),
      dlookup_append_left_junk (hnone "output_path" (by decide)),
      dlookup_append_left_junk (hnone "format" (by decide)),
      dlookup_append_left_junk (hnone "options" (by decide)),
      dlookup_append_left_junk (hnone "start_frame" (by decide)),
      dlookup_append_left_junk (hnone "end_frame" (by decide)),
      dlookup_append_left_junk (hnone "verbose" (by decide)),
      dlookup_append_left_junk (hnone "quiet" (by decide)),
      dlookup_append_left_junk (hnone "log_file" (by decide)),
      dlookup_append_left_junk (hnone "multithread" (by decide)),
      dlookup_append_left_junk (hnone "halfsize" (by decide)),
      dlookup_append_left_junk (hnone "halffps" (by decide)),
      dlookup_append_left_junk (hnone "shapefx" (by decide)),
      dlookup_append_left_junk (hnone "layerfx" (by decide)),
      dlookup_append_left_junk (hnone "fewparticles" (by decide)),
      dlookup_append_left_junk (hnone "layercomp" (by decide)),
      dlookup_append_left_junk (hnone "aa" (by decide)),
      dlookup_append_left_junk (hnone "extrasmooth" (by decide)),
      dlookup_append_left_junk (hnone "premultiply" (by decide)),
      dlookup_append_left_junk (hnone "ntscsafe" (by decide)),
      dlookup_append_left_junk (hnone "addformatsuffix" (by decide)),
      dlookup_append_left_junk (hnone "addlayercompsuffix" (by decide)),
      dlookup_append_left_junk (hnone "createfolderforlayercomps" (by decide)),
      dlookup_append_left_junk (hnone "videocodec" (by decide)),
      dlookup_append_left_junk (hnone "quality" (by decide)),
      dlookup_append_left_junk (hnone "depth" (by decide)),
      dlookup_append_left_junk (hnone "subfolder_project" (by decide)),
      dlookup_append_left_junk (hnone "copy_images" (by decide)),
      dlookup_append_left_junk (hnone "compose_layers" (by decide)),
      dlookup_append_left_junk (hnone "compose_reverse_order" (by decide)),
      dlookup_append_left_junk (hnone "status" (by decide)),
      dlookup_append_left_junk (hnone "progress" (by decide)),
      dlookup_append_left_junk (hnone "error_message" (by decide)),
      dlookup_append_left_junk (hnone "start_time" (by decide)),
      dlookup_append_left_junk (hnone "end_time" (by decide)),
      dlookup_append_left_junk (hnone "assigned_slave" (by decide))]

/-! ## Claim theorems -/

/-- Claim C4: in every run of `MohoRenderer.render` in which the
cancel flag was set before `wait()` returned, the returned job has
status cancelled, regardless of the exit code (`rc` ranges over all
codes, including 0) and of the stderr content. -/
theorem c4_cancel_flag_wins_over_exit_code (mohoPath : String) (rc : Int)
    (lines : List String) (startNow endNow : Int) (job : RenderJob) :
    (mohoRender mohoPath (SpawnResult.ok rc lines) true startNow endNow job).status
      = RS.cancelled := by
  simp [mohoRender, renderClassify]

set_option maxRecDepth 8000 in
/-- Claim C8, counterexample to the stated truncation: a 501-character
stderr line is stored in `error_message` in full, exceeding the
claimed truncation bound of 500 characters; no tail-truncation takes
place (src/src/moho_renderer.py, line 265). -/
theorem c8_counterexample_error_message_not_truncated :
    (mohoRender "moho" (SpawnResult.ok 1 [longLine]) false 0 5 {}).status
        = RS.failed ∧
      (mohoRender "moho" (SpawnResult.ok 1 [longLine]) false 0 5 {}).error_message
        = longLine ∧
      longLine.length = 501 := by
  refine ⟨rfl, ?_, rfl⟩
  rfl

/-- Claim C8, amended: on a non-zero exit without cancellation the job
fails and `error_message` is the whole stripped stderr buffer when the
buffer is non-empty, otherwise the string `Exit code: N`, which
contains the exit code. -/
theorem c8_amended_failed_error_message (mohoPath : String) (rc : Int)
    (lines : List String) (startNow endNow : Int) (job : RenderJob)
    (hrc : rc ≠ 0) :
    (mohoRender mohoPath (SpawnResult.ok rc lines) false startNow endNow job).status
        = RS.failed ∧
      (mohoRender mohoPath (SpawnResult.ok rc lines) false startNow endNow job).error_message
        = (if stderrCollect lines ≠ "" then pyStrip (stderrCollect lines)
           else "Exit code: " ++ toString rc) := by
  unfold mohoRender renderClassify
  simp [hrc]

/-- Concrete run of the amended C8 statement at exit code 1 and stderr
line `bad project`. -/
theorem c8_amended_failed_error_message_witness :
    (1 : Int) ≠ 0 ∧
      (mohoRender "moho" (SpawnResult.ok 1 ["bad project"]) false 0 5 {}).status
        = RS.failed ∧
      (mohoRender "moho" (SpawnResult.ok 1 ["bad project"]) false 0 5 {}).error_message
        = "bad project" := by
  have h := c8_amended_failed_error_message "moho" 1 ["bad project"] 0 5 {} (by decide)
  exact ⟨by decide, h.1, h.2.trans (by decide)⟩

/-- Claim C10: `farm_files_uploaded` is not a `RenderJob` dataclass
field, so the gate at the top of `SlaveClient._process_job` raises
`AttributeError` for every job, and `RenderJob.from_dict` drops the
key even if a dict carries it, so no job can ever declare uploaded
inputs; the download / extract / cleanup path is unreachable and no
slave job reaches the renderer. -/
theorem c10_farm_files_attribute_missing :
    renderJobFieldNames.contains "farm_files_uploaded" = false ∧
      (∀ job : RenderJob, slaveFarmFilesGate job =
        Except.error "AttributeError: farm_files_uploaded") ∧
      RenderJob.from_dict "u" [("farm_files_uploaded", vBool true)] =
        RenderJob.from_dict "u" [] := by
  refine ⟨by decide, fun job => rfl, rfl⟩

/-- Claim C7: saving a queue and loading the document into an empty
queue yields exactly the original jobs with `load_queue`'s reset
applied; the reset touches only the runtime fields and only jobs not
in `rendering`; unknown dict keys are ignored by `from_dict` wherever
they sit. -/
theorem c7_queue_save_load_roundtrip :
    (∀ (uuid : String) (jobs : List RenderJob),
        loadQueue uuid [] (saveQueueDoc jobs) false = jobs.map loadResetJob) ∧
      (∀ j : RenderJob, j.status ≠ RS.rendering →
        loadResetJob j =
          { j with
              status := RS.pending
              progress := 0
              error_message := ""
              start_time := none
              end_time := none }) ∧
      (∀ j : RenderJob, j.status = RS.rendering → loadResetJob j = j) ∧
      (∀ (uuid : String) (d junk : List (String × Value)),
        (∀ p ∈ junk, p.1 ∉ renderJobFieldNames) →
        RenderJob.from_dict uuid (d ++ junk) = RenderJob.from_dict uuid d ∧
          RenderJob.from_dict uuid (junk ++ d) = RenderJob.from_dict uuid d) := by
  refine ⟨?_, ?_, ?_, ?_⟩
  · intro uuid jobs
    unfold loadQueue saveQueueDoc
    simp [from_dict_to_dict]
  · intro j hj
    simp [loadResetJob, hj]
  · intro j hj
    simp [loadResetJob, hj]
  · intro uuid d junk h
    exact from_dict_ignores_unknown_keys uuid d junk h

/-- Concrete round trip for C7: a failed job with runtime state is
saved and loaded back as a fresh pending job with identical id, and a
bogus key does not change decoding. -/
theorem c7_queue_save_load_roundtrip_witness :
    loadQueue "u" []
        (saveQueueDoc
          [{ id := "a"
             status := RS.failed
             progress := 55
             error_message := "boom"
             start_time := some 1
             end_time := some 2 }])
        false = [{ id := "a" }] ∧
      RenderJob.from_dict "u" ([("id", vStr "a")] ++ [("bogus", vNull)]) =
        RenderJob.from_dict "u" [("id", vStr "a")] := by
  constructor
  · have h := c7_queue_save_load_roundtrip.1 "u"
      [{ id := "a", status := RS.failed, progress := 55,
         error_message := "boom", start_time := some 1, end_time := some 2 }]
    rw [h]
    rfl
  · exact (c7_queue_save_load_roundtrip.2.2.2 "u" [("id", vStr "a")]
      [("bogus", vNull)] (by decide)).1

/-- Claim C1 at its failing input: the slave holding active job `a`
reports `success := false, cancelled := true`.  The handler
(src/src/network/master.py, lines 158-201) never reads the `cancelled`
field of the report body, so the job is marked failed and the slave's
`jobs_failed` counter is incremented, where the claim requires status
cancelled.  The success branch behaves as claimed: completed, progress
100, `jobs_completed` incremented. -/
theorem c1_cancelled_report_marked_failed :
    ((masterJobComplete demoLeasedState "10.0.0.1" 5000 "a" false true "" 2).completed_jobs.map
        (fun j => (j.id, j.status)) = [("a", RS.failed)]) ∧
      ((dlookup (masterJobComplete demoLeasedState "10.0.0.1" 5000 "a" false true "" 2).slaves
          (slaveKey "10.0.0.1" 5000)).map SlaveInfo.jobs_failed = some 1) ∧
      ((masterJobComplete demoLeasedState "10.0.0.1" 5000 "a" true false "" 2).completed_jobs.map
          (fun j => (j.id, j.status, j.progress)) = [("a", RS.completed, 100)]) ∧
      ((dlookup (masterJobComplete demoLeasedState "10.0.0.1" 5000 "a" true false "" 2).slaves
          (slaveKey "10.0.0.1" 5000)).map SlaveInfo.jobs_completed = some 1) := by
  refine ⟨rfl, rfl, rfl, rfl⟩

/-- Claim C2 at its failing input: job `a` is active on the slave.
`cancel_job` scans only pending and reserved
(src/src/network/master.py, lines 264-285), so it returns `None` and
leaves the state untouched, and every heartbeat response is the
literal body of master.py line 119, which carries no `cancel_jobs`
key and no `force_update` key for the slave to act on. -/
theorem c2_no_cancel_signal_reaches_the_slave :
    (masterCancelJob demoLeasedState "a").2 = none ∧
      (masterCancelJob demoLeasedState "a").1 = demoLeasedState ∧
      (∀ (st : MasterState) (ip : String) (port : Int) (reported : String)
          (now : Int),
        dlookup (masterHeartbeat st ip port reported now).2 "cancel_jobs" = none ∧
          dlookup (masterHeartbeat st ip port reported now).2 "force_update" = none) := by
  refine ⟨rfl, rfl, fun st ip port reported now => ⟨rfl, rfl⟩⟩

/-- Claim C9, counterexample: the handler keys completion by slave
address, not by the reported `job_id`.  The id `zzz` is tracked
nowhere, yet the report pops the slave's active job `a` and marks it
completed — a job is mutated. -/
theorem c9_counterexample_untracked_id_mutates_job :
    ("zzz" ∉ allJobIds demoLeasedState) ∧
      (jobIdsOf demoLeasedState.active_jobs = ["a"]) ∧
      ((masterJobComplete demoLeasedState "10.0.0.1" 5000 "zzz" true false "" 2).active_jobs
        = []) ∧
      ((masterJobComplete demoLeasedState "10.0.0.1" 5000 "zzz" true false "" 2).completed_jobs.map
          (fun j => (j.id, j.status)) = [("a", RS.completed)]) := by
  refine ⟨by decide, rfl, rfl, rfl⟩

/-- Claim C9, amended: a `job_complete` report from a slave with no
entry in the active map is accepted (the handler always answers 200),
resets that slave to idle with `current_job_id` cleared, and mutates
none of the four job collections, whatever `job_id` the report names. -/
theorem c9_amended_unknown_active_report_is_noop (st : MasterState)
    (ip : String) (port : Int) (jobId : String) (success cancelled : Bool)
    (error : String) (now : Int)
    (hact : dlookup st.active_jobs (slaveKey ip port) = none) :
    ((masterJobComplete st ip port jobId success cancelled error now).pending_jobs
        = st.pending_jobs) ∧
      ((masterJobComplete st ip port jobId success cancelled error now).active_jobs
        = st.active_jobs) ∧
      ((masterJobComplete st ip port jobId success cancelled error now).reserved_jobs
        = st.reserved_jobs) ∧
      ((masterJobComplete st ip port jobId success cancelled error now).completed_jobs
        = st.completed_jobs) ∧
      (∀ sl, dlookup st.slaves (slaveKey ip port) = some sl →
        dlookup (masterJobComplete st ip port jobId success cancelled error now).slaves
            (slaveKey ip port)
          = some { sl with status := "idle", current_job_id := "" }) := by
  unfold masterJobComplete
  dsimp only
  rw [hact]
  dsimp only
  cases hsl : dlookup st.slaves (slaveKey ip port) with
  | none =>
    refine ⟨rfl, rfl, rfl, rfl, fun sl hsl2 => ?_⟩
    cases hsl2
  | some sl =>
    refine ⟨rfl, rfl, rfl, rfl, fun sl2 hsl2 => ?_⟩
    injection hsl2 with hv
    subst hv
    exact dlookup_dinsert_self st.slaves (slaveKey ip port) _

/-- Concrete run of the amended C9 statement: one registered idle
slave, empty farm; a stray report leaves the collections empty and the
slave idle. -/
theorem c9_amended_unknown_active_report_is_noop_witness :
    ((masterJobComplete (masterRegister masterInit "host" "10.0.0.1" 5000 0)
        "10.0.0.1" 5000 "a" true false "" 2).completed_jobs = []) ∧
      (dlookup (masterJobComplete (masterRegister masterInit "host" "10.0.0.1" 5000 0)
          "10.0.0.1" 5000 "a" true false "" 2).slaves (slaveKey "10.0.0.1" 5000)
        = some
          { hostname := "host"
            ip := "10.0.0.1"
            port := 5000
            status := "idle"
            current_job_id := ""
            last_heartbeat := 0
            jobs_completed := 0
            jobs_failed := 0 }) := by
  have h := c9_amended_unknown_active_report_is_noop
    (masterRegister masterInit "host" "10.0.0.1" 5000 0)
    "10.0.0.1" 5000 "a" true false "" 2 rfl
  exact ⟨h.2.2.2.1.trans rfl, h.2.2.2.2 _ rfl⟩

/-- Claim C5: the `get_job` lease protocol.  An unregistered caller
gets `notRegistered` (the 403 reply) and the state is unchanged; a
registered caller is leased its reserved job if one exists, else the
head of pending, else no job; the leased job is set to rendering with
`assigned_slave` and `start_time` stamped and stored in
`active[caller]`, and the caller's slave record becomes rendering with
`current_job_id` set to the leased id. -/
theorem c5_get_job_lease_protocol (st : MasterState) (ip : String)
    (port now : Int) :
    (dlookup st.slaves (slaveKey ip port) = none →
        masterGetJob st ip port now = (st, GetJobResult.notRegistered)) ∧
      (∀ sl job, dlookup st.slaves (slaveKey ip port) = some sl →
        dlookup st.reserved_jobs (slaveKey ip port) = some job →
        (masterGetJob st ip port now).2 = GetJobResult.leased
            { job with
                status := RS.rendering
                assigned_slave := slaveKey ip port
                start_time := some now } ∧
          (masterGetJob st ip port now).1.pending_jobs = st.pending_jobs ∧
          (masterGetJob st ip port now).1.reserved_jobs
            = derase st.reserved_jobs (slaveKey ip port) ∧
          (masterGetJob st ip port now).1.active_jobs
            = dinsert st.active_jobs (slaveKey ip port)
                { job with
                    status := RS.rendering
                    assigned_slave := slaveKey ip port
                    start_time := some now } ∧
          dlookup (masterGetJob st ip port now).1.slaves (slaveKey ip port)
            = some
              { sl with
                  last_heartbeat := now
                  status := "rendering"
                  current_job_id := job.id }) ∧
      (∀ sl job rest, dlookup st.slaves (slaveKey ip port) = some sl →
        dlookup st.reserved_jobs (slaveKey ip port) = none →
        st.pending_jobs = job :: rest →
        (masterGetJob st ip port now).2 = GetJobResult.leased
            { job with
                status := RS.rendering
                assigned_slave := slaveKey ip port
                start_time := some now } ∧
          (masterGetJob st ip port now).1.pending_jobs = rest ∧
          (masterGetJob st ip port now).1.reserved_jobs = st.reserved_jobs ∧
          (masterGetJob st ip port now).1.active_jobs
            = dinsert st.active_jobs (slaveKey ip port)
                { job with
                    status := RS.rendering
                    assigned_slave := slaveKey ip port
                    start_time := some now } ∧
          dlookup (masterGetJob st ip port now).1.slaves (slaveKey ip port)
            = some
              { sl with
                  last_heartbeat := now
                  status := "rendering"
                  current_job_id := job.id }) ∧
      (∀ sl, dlookup st.slaves (slaveKey ip port) = some sl →
        dlookup st.reserved_jobs (slaveKey ip port) = none →
        st.pending_jobs = [] →
        (masterGetJob st ip port now).2 = GetJobResult.noJob ∧
          (masterGetJob st ip port now).1.pending_jobs = [] ∧
          (masterGetJob st ip port now).1.reserved_jobs = st.reserved_jobs ∧
          (masterGetJob st ip port now).1.active_jobs = st.active_jobs ∧
          dlookup (masterGetJob st ip port now).1.slaves (slaveKey ip port)
            = some { sl with last_heartbeat := now }) := by
  refine ⟨?_, ?_, ?_, ?_⟩
  · intro hsl
    unfold masterGetJob
    dsimp only
    rw [hsl]
  · intro sl job hsl hres
    unfold masterGetJob
    dsimp only
    rw [hsl]
    dsimp only
    rw [hres]
    dsimp only
    rw [dlookup_dinsert_self]
    dsimp only
    exact ⟨rfl, rfl, rfl, rfl, dlookup_dinsert_self _ _ _⟩
  · intro sl job rest hsl hres hpend
    unfold masterGetJob
    dsimp only
    rw [hsl]
    dsimp only
    rw [hres, hpend]
    dsimp only
    rw [dlookup_dinsert_self]
    dsimp only
    exact ⟨rfl, rfl, rfl, rfl, dlookup_dinsert_self _ _ _⟩
  · intro sl hsl hres hpend
    unfold masterGetJob
    dsimp only
    rw [hsl]
    dsimp only
    rw [hres, hpend]
    dsimp only
    exact ⟨rfl, rfl, rfl, rfl, dlookup_dinsert_self _ _ _⟩

/-- Concrete run of the C5 lease protocol on `demoReservedState`: the
slave polls and is leased its reserved job `a`, which leaves the
reservation map empty. -/
theorem c5_get_job_lease_protocol_witness :
    (masterGetJob demoReservedState "10.0.0.1" 5000 2).2 =
        GetJobResult.leased
          { id := "a"
            status := RS.rendering
            assigned_slave := slaveKey "10.0.0.1" 5000
            start_time := some 2 } ∧
      (masterGetJob demoReservedState "10.0.0.1" 5000 2).1.reserved_jobs = [] := by
  have h := (c5_get_job_lease_protocol demoReservedState "10.0.0.1" 5000 2).2.1
    { hostname := "host"
      ip := "10.0.0.1"
      port := 5000
      status := "idle"
      current_job_id := ""
      last_heartbeat := 0
      jobs_completed := 0
      jobs_failed := 0 }
    { id := "a" } rfl rfl
  exact ⟨h.1, h.2.2.1.trans rfl⟩

/-- Claim C6, counterexample: a job that entered the farm through
`/api/add_job` with a stale `assigned_slave` value is reserved for a
slave that then goes stale; the sweeper moves it to the head of
pending without clearing `assigned_slave` (src/src/network/master.py,
lines 374-380 perform no reset on the reserved branch), where the
claim requires `assigned_slave` cleared for requeued reserved jobs. -/
theorem c6_counterexample_reserved_requeued_unchanged :
    ((masterCheckSlaves demoReservedDirtyState 100).pending_jobs.map
        (fun j => (j.id, j.status, j.assigned_slave))
      = [("a", RS.pending, "10.9.9.9:1")]) ∧
      ((dlookup (masterCheckSlaves demoReservedDirtyState 100).slaves
          (slaveKey "10.0.0.1" 5000)).map SlaveInfo.status = some "offline") := by
  refine ⟨rfl, rfl⟩

/-- Claim C6, amended: when the sweeper visits a slave that is not
alive and not yet offline, it marks the slave offline; a job active
for it moves to the head of pending with status reset to pending and
`assigned_slave` cleared; a job reserved for it moves to the head of
pending unchanged (no field reset); with both present the reserved
job ends up before the reset active job. -/
theorem c6_amended_sweep_requeue (st : MasterState) (key : String)
    (now : Int) (sl : SlaveInfo) (hsl : dlookup st.slaves key = some sl)
    (halive : sl.is_alive now = false) (hoff : sl.status ≠ "offline") :
    (dlookup (sweepSlave st key now).slaves key
        = some { sl with status := "offline" }) ∧
      (∀ j, dlookup st.active_jobs key = some j →
        dlookup st.reserved_jobs key = none →
        (sweepSlave st key now).pending_jobs
            = { j with status := RS.pending, assigned_slave := "" }
                :: st.pending_jobs ∧
          (sweepSlave st key now).active_jobs = derase st.active_jobs key ∧
          (sweepSlave st key now).reserved_jobs = st.reserved_jobs) ∧
      (∀ j, dlookup st.reserved_jobs key = some j →
        dlookup st.active_jobs key = none →
        (sweepSlave st key now).pending_jobs = j :: st.pending_jobs ∧
          (sweepSlave st key now).reserved_jobs = derase st.reserved_jobs key ∧
          (sweepSlave st key now).active_jobs = st.active_jobs) ∧
      (∀ ja jr, dlookup st.active_jobs key = some ja →
        dlookup st.reserved_jobs key = some jr →
        (sweepSlave st key now).pending_jobs
            = jr :: { ja with status := RS.pending, assigned_slave := "" }
                :: st.pending_jobs ∧
          (sweepSlave st key now).active_jobs = derase st.active_jobs key ∧
          (sweepSlave st key now).reserved_jobs = derase st.reserved_jobs key) := by
  unfold sweepSlave
  dsimp only
  rw [hsl]
  dsimp only
  split
  · rename_i hcond
    exfalso
    revert hcond
    simp [halive, hoff]
  · cases hact : dlookup st.active_jobs key with
    | none =>
      dsimp only
      cases hres : dlookup st.reserved_jobs key with
      | none =>
        refine ⟨dlookup_dinsert_self _ _ _, ?_, ?_, ?_⟩
        · intro j hj _
          cases hj
        · intro j hj _
          cases hj
        · intro ja _ hja _
          cases hja
      | some jr =>
        refine ⟨dlookup_dinsert_self _ _ _, ?_, ?_, ?_⟩
        · intro j hj _
          cases hj
        · intro j hj _
          injection hj with hv
          subst hv
          exact ⟨rfl, rfl, rfl⟩
        · intro ja _ hja _
          cases hja
    | some ja =>
      dsimp only
      cases hres : dlookup st.reserved_jobs key with
      | none =>
        refine ⟨dlookup_dinsert_self _ _ _, ?_, ?_, ?_⟩
        · intro j hj _
          injection hj with hv
          subst hv
          exact ⟨rfl, rfl, rfl⟩
        · intro j hj _
          cases hj
        · intro ja2 jr hja hjr
          cases hjr
      | some jr =>
        refine ⟨dlookup_dinsert_self _ _ _, ?_, ?_, ?_⟩
        · intro j _ hr
          cases hr
        · intro j _ ha
          cases ha
        · intro ja2 jr2 hja hjr
          injection hja with hva
          injection hjr with hvr
          subst hva
          subst hvr
          exact ⟨rfl, rfl, rfl⟩

/-- Concrete run of the amended C6 statement: the slave holding active
job `a` stops heartbeating; the sweeper step marks it offline and
requeues the job at the head of pending, reset and unassigned. -/
theorem c6_amended_sweep_requeue_witness :
    (dlookup (sweepSlave demoLeasedState (slaveKey "10.0.0.1" 5000) 100).slaves
          (slaveKey "10.0.0.1" 5000)).map SlaveInfo.status = some "offline" ∧
      (sweepSlave demoLeasedState (slaveKey "10.0.0.1" 5000) 100).pending_jobs.map
          (fun j => (j.id, j.status, j.assigned_slave))
        = [("a", RS.pending, "")] := by
  have h := c6_amended_sweep_requeue demoLeasedState (slaveKey "10.0.0.1" 5000)
    100
    { hostname := "host"
      ip := "10.0.0.1"
      port := 5000
      status := "rendering"
      current_job_id := "a"
      last_heartbeat := 1
      jobs_completed := 0
      jobs_failed := 0 }
    rfl (by decide) (by decide)
  have h2 := h.2.1
    { id := "a"
      status := RS.rendering
      assigned_slave := slaveKey "10.0.0.1" 5000
      start_time := some 1 }
    rfl rfl
  constructor
  · rw [h.1]
    rfl
  · rw [h2.1]
    rfl
